import Mathlib

/-!
Verification of `msal/oauth2cli/authcode.py`.

A shallow embedding of the auth-code capture helper: the query-string
decoder (`urllib.parse.parse_qs` as used by the handler), the per-request
handler `AuthCodeReceiver.do_GET`, the listener
`AuthcodeRedirectServer.get_auth_code` receive loop, the browser opener
`browse`, and the orchestrator `obtain_auth_code`.

Strings are modelled as `List Char` so that all definitions evaluate by
kernel reduction on concrete inputs.
-/

set_option autoImplicit false

abbrev Str := List Char

/-! ## Query decoding

Models `urllib.parse.parse_qs(query)` with its default
`keep_blank_values=False`: `&`-separated fields, each split at its first
`=`; fields without `=` and fields whose raw value is empty are dropped;
names and values are `unquote_plus`-decoded (`+` to space, `%XX`
percent-escapes decoded best-effort, invalid escapes passed through).
-/

/-- The numeric value of a hexadecimal digit, if `c` is one. -/
def hexVal (c : Char) : Option Nat :=
  if '0' ≤ c ∧ c ≤ '9' then some (c.toNat - '0'.toNat)
  else if 'a' ≤ c ∧ c ≤ 'f' then some (c.toNat - 'a'.toNat + 10)
  else if 'A' ≤ c ∧ c ≤ 'F' then some (c.toNat - 'A'.toNat + 10)
  else none

/-- Best-effort percent-decoding: a valid `%XX` escape becomes the byte's
character; an invalid escape passes through unchanged. The `fuel`
parameter (instantiated with the input length, which bounds the number of
recursive steps) only makes the recursion structural. -/
def pdAux : Nat → Str → Str
  | 0, _ => []
  | _ + 1, [] => []
  | fuel + 1, '%' :: rest =>
    match rest with
    | h1 :: h2 :: rest2 =>
      match hexVal h1, hexVal h2 with
      | some a, some b => Char.ofNat (16 * a + b) :: pdAux fuel rest2
      | _, _ => '%' :: pdAux fuel rest
    | _ => '%' :: pdAux fuel rest
  | fuel + 1, c :: rest => c :: pdAux fuel rest

/-- Best-effort percent-decoding of a whole string. -/
def percentDecode (s : Str) : Str := pdAux s.length s

/-- Models `urllib.parse.unquote_plus`: `+` becomes a space, then percent-decode. -/
def unquotePlus (s : Str) : Str :=
  percentDecode (s.map fun c => if c = '+' then ' ' else c)

/-- Split a character list on a separator character. -/
def splitOnChar (sep : Char) : Str → List Str
  | [] => [[]]
  | c :: rest =>
    if c = sep then [] :: splitOnChar sep rest
    else
      match splitOnChar sep rest with
      | [] => [[c]]
      | f :: fs => (c :: f) :: fs

/-- Split a field at its first `=`, if any. -/
def splitFirstEq : Str → Option (Str × Str)
  | [] => none
  | '=' :: rest => some ([], rest)
  | c :: rest => (splitFirstEq rest).map fun p => (c :: p.1, p.2)

/-- Models `urllib.parse.parse_qsl(query)` with `keep_blank_values=False`:
the ordered name/value pairs of the query string, dropping empty fields,
fields without `=`, and fields whose raw value is empty. -/
def parse_qsl (query : Str) : List (Str × Str) :=
  (splitOnChar '&' query).filterMap fun field =>
    if field = [] then none
    else
      match splitFirstEq field with
      | none => none
      | some (n, v) => if v = [] then none else some (unquotePlus n, unquotePlus v)

/-- Looking a key up in the dictionary built by `parse_qs`: the ordered
list of values bound to `key` (`[]` when the key is absent, which is
exactly when `qs.get(key)` is falsy in the handler). -/
def qsGet (qs : List (Str × Str)) (key : Str) : List Str :=
  (qs.filter fun p => p.1 = key).map (·.2)

/-- The query component of a request target, as `urlparse(path).query`
extracts it: the part after the first `?`, with any `#fragment` removed. -/
def beforeHash : Str → Str
  | [] => []
  | '#' :: _ => []
  | c :: rest => c :: beforeHash rest

/-- The part after the first `?` (empty when there is no `?`). -/
def afterQmark : Str → Str
  | [] => []
  | '?' :: rest => rest
  | _ :: rest => afterQmark rest

/-- Models `urlparse(path).query`. -/
def urlparseQuery (path : Str) : Str := afterQmark (beforeHash path)

/-! ## Server state and responses -/

/-- The state owned by `AuthcodeRedirectServer` (the capture session),
together with instrumentation for the socket lifecycle (`closed`,
`closeCount` counts `server_close` invocations) and the number of
`handle_request` calls issued (`handled`). -/
structure Server where
  bindHost : Str
  bindPort : Nat
  state : Option Str
  auth_code : Option Str
  timeout : Nat
  closed : Bool
  closeCount : Nat
  handled : Nat
  deriving DecidableEq, Repr

/-- Embeds `AuthcodeRedirectServer.__init__(port, request_state)`:
`HTTPServer.__init__(self, ("", port), AuthCodeReceiver)`, then
`self.state = request_state`, `self.auth_code = None`, `self.timeout = 300`. -/
def mkServer (port : Nat) (request_state : Option Str) : Server :=
  { bindHost := "".data
    bindPort := port
    state := request_state
    auth_code := none
    timeout := 300
    closed := false
    closeCount := 0
    handled := 0 }

/-- Python truthiness of an optional string: `None` and `""` are falsy. -/
def truthyStr : Option Str → Bool
  | none => false
  | some s => !s.isEmpty

/-- An HTTP response as written by the handler. -/
structure Response where
  status : Nat
  contentType : Str
  body : Str
  deriving DecidableEq, Repr

/-- Embeds `AuthCodeReceiver._send_full_response(body, is_ok)`: status 200 when
`is_ok` else 400; content-type `text/html` when the body starts with `<`,
else `text/plain`. -/
def send_full_response (body : Str) (is_ok : Bool) : Response :=
  { status := if is_ok then 200 else 400
    contentType := if body.head? = some '<' then "text/html".data else "text/plain".data
    body := body }

/-- The condition
`self.server.state and self.server.state != qs.get('state', [None])[0]`:
the expected state is truthy (present and non-empty) and differs from the
request's first `state` value (`none` models the absent case's `None`). -/
def stateCheckFails (expected got : Option Str) : Bool :=
  match expected with
  | none => false
  | some st => decide (st ≠ []) && decide (got ≠ some st)

/-- The outcome of one `do_GET` dispatch: a response written with the
server state afterwards, or a raised `ValueError` (state mismatch) with
the server state it left behind. -/
inductive GetOutcome where
  | responded (resp : Response) (srv : Server)
  | valueError (msg : Str) (srv : Server)
  deriving DecidableEq, Repr

/-- Embeds `AuthCodeReceiver.do_GET`: decode the query of `self.path`; if `code`
is present, validate state (raising `ValueError` on mismatch) and store
`qs['code'][0]` into `self.server.auth_code`, confirming in plain text;
else if `text` and `link` are both present, render the landing page;
else the default message. -/
def do_GET (srv : Server) (path : Str) : GetOutcome :=
  let qs := parse_qsl (urlparseQuery path)
  if qsGet qs "code".data ≠ [] then
    if stateCheckFails srv.state ((qsGet qs "state".data).head?) then
      GetOutcome.valueError "State does not match".data srv
    else
      GetOutcome.responded
        (send_full_response "Authentication complete. You can close this window".data true)
        { srv with auth_code := some ((qsGet qs "code".data).headD []) }
  else if qsGet qs "text".data ≠ [] ∧ qsGet qs "link".data ≠ [] then
    GetOutcome.responded
      (send_full_response
        ("<a href=".data ++ (qsGet qs "link".data).headD [] ++ ">".data
          ++ (qsGet qs "text".data).headD [] ++ "</a><hr/>".data
          ++ (qsGet qs "exit_hint".data).headD []) true)
      srv
  else
    GetOutcome.responded
      (send_full_response "This web service serves your redirect_uri".data true) srv

/-! ## The receive loop of `AuthcodeRedirectServer.get_auth_code`

The loop issues one `handle_request` per iteration while
`not self.auth_code`.  A `handle_request` call either dispatches one
inbound GET request to `do_GET` (whose `ValueError` propagates to the
loop's `except ValueError: break`), or hits the select timeout, in which
case `handle_timeout` tears the server down with `server_close`; the next
`handle_request` on the closed socket then raises (`ValueError` on
Python 3, `IOError` on Python 2) and the loop breaks.  The events an
execution delivers to the loop are modelled as a list. -/

/-- One occasion the blocking `handle_request` call returns: an inbound
GET request for `path`, or the select timeout expiring. -/
inductive Event where
  | request (path : Str)
  | timeout
  deriving DecidableEq, Repr

/-- Embeds `HTTPServer.server_close`: close the listening socket, releasing the
port. `closeCount` counts the invocations. -/
def server_close (srv : Server) : Server :=
  { srv with closed := true, closeCount := srv.closeCount + 1 }

/-- Embeds `AuthcodeRedirectServer.handle_timeout`: "Break the request-handling
loop by tearing down the server". -/
def handle_timeout (srv : Server) : Server := server_close srv

/-- Why the `while not self.auth_code` loop stopped. -/
inductive LoopExit where
  | condFalse
  | brokeValueError
  | brokeOnClosed
  | exhausted
  deriving DecidableEq, Repr

/-- The `while not self.auth_code` loop of `get_auth_code`: check the
condition, issue `handle_request` (consuming the next event; a request on
an already-closed server raises and the `except` clauses break), repeat.
`exhausted` marks runs whose event list ends before the loop would exit
(the real loop would still be blocked). -/
def runLoop : Server → List Event → Server × LoopExit
  | srv, evs =>
    if truthyStr srv.auth_code then (srv, LoopExit.condFalse)
    else if srv.closed then (srv, LoopExit.brokeOnClosed)
    else
      match evs with
      | [] => (srv, LoopExit.exhausted)
      | Event.timeout :: rest =>
        runLoop (handle_timeout { srv with handled := srv.handled + 1 }) rest
      | Event.request p :: rest =>
        match do_GET { srv with handled := srv.handled + 1 } p with
        | GetOutcome.valueError _ s' => (s', LoopExit.brokeValueError)
        | GetOutcome.responded _ s' => runLoop s' rest

/-- Embeds `AuthcodeRedirectServer.get_auth_code`: run the receive loop, then the
`finally: self.server_close()`, and return `self.auth_code`. -/
def get_auth_code (srv : Server) (evs : List Event) : Server × Option Str :=
  let s1 := (runLoop srv evs).1
  let s2 := server_close s1
  (s2, s2.auth_code)

/-! ## `browse` and `obtain_auth_code` -/

/-- A browser controller, identified opaquely. -/
abbrev Controller := Str

/-- The ambient `webbrowser` module state: `default` is what
`webbrowser.get()` yields (`none` models it raising `webbrowser.Error`),
`byName b` is what `webbrowser.get(b)` yields (`none` models the raised
`webbrowser.Error` for an uninstalled browser). -/
structure BrowserEnv where
  default : Option Controller
  byName : Str → Option Controller

/-- Failure of `browse`. -/
inductive BrowseErr where
  | browserUnavailable
  deriving DecidableEq, Repr

/-- The preference-ordered browser list tried by `browse`. -/
def preferredBrowsers : List Str :=
  ["chrome".data, "firefox".data, "safari".data, "windows-default".data]

/-- The `for browser in [...]` loop of `browse`: try each name; on
`webbrowser.Error` pass and try the next; on success replace the current
controller and break; if every candidate fails, keep the current one. -/
def pickController (env : BrowserEnv) (cur : Controller) : List Str → Controller
  | [] => cur
  | b :: rest =>
    match env.byName b with
    | some c => c
    | none => pickController env cur rest

/-- Embeds `browse(auth_uri)`: `controller = webbrowser.get()` (its
`webbrowser.Error` is *not* caught and propagates), then the preference
loop, then `controller.open(auth_uri)`.  Returns the controller used and
the URI it opened. -/
def browse (env : BrowserEnv) (auth_uri : Option Str) :
    Except BrowseErr (Controller × Option Str) :=
  match env.default with
  | none => Except.error BrowseErr.browserUnavailable
  | some d => Except.ok (pickController env d preferredBrowsers, auth_uri)

/-- Models `str(v)` as `urlencode` applies it to a possibly-`None` value. -/
def pystr : Option Str → Str
  | none => "None".data
  | some s => s

/-- A decimal digit's character. -/
def hexDigit (n : Nat) : Char :=
  if n < 10 then Char.ofNat ('0'.toNat + n) else Char.ofNat ('A'.toNat + n - 10)

/-- The UTF-8 bytes of a character. -/
def utf8Bytes (c : Char) : List Nat :=
  let n := c.toNat
  if n < 0x80 then [n]
  else if n < 0x800 then [0xC0 + n / 64, 0x80 + n % 64]
  else if n < 0x10000 then [0xE0 + n / 4096, 0x80 + n / 64 % 64, 0x80 + n % 64]
  else [0xF0 + n / 262144, 0x80 + n / 4096 % 64, 0x80 + n / 64 % 64, 0x80 + n % 64]

/-- Models `urllib.parse.quote_plus` with its default safe set: alphanumerics
and `_.-~` kept, space becomes `+`, everything else percent-encoded
byte-wise. -/
def quote_plus (s : Str) : Str :=
  s.foldr
    (fun c acc =>
      (if c.isAlphanum ∨ c ∈ ['_', '.', '-', '~'] then [c]
       else if c = ' ' then ['+']
       else (utf8Bytes c).foldr
         (fun b acc2 => '%' :: hexDigit (b / 16) :: hexDigit (b % 16) :: acc2) []) ++ acc)
    []

/-- Models `urllib.parse.urlencode`: `&`-joined `quote_plus(k)=quote_plus(v)`
pairs in order. -/
def urlencode (ps : List (Str × Str)) : Str :=
  match ps with
  | [] => []
  | p :: rest =>
    (quote_plus p.1 ++ "=".data ++ quote_plus p.2)
      ++ rest.foldr (fun q acc =>
          '&' :: (quote_plus q.1 ++ "=".data ++ quote_plus q.2) ++ acc) []

/-- Decimal rendering of a port number. -/
def natToStr (n : Nat) : Str := (Nat.repr n).data

/-- The `exit_hint` string built by `obtain_auth_code` when `text` is
supplied. -/
def exitHint (port : Nat) : Str :=
  "Visit http://localhost:".data ++ natToStr port ++ "?auth_code=exit to abort".data

/-- The landing-page URI `obtain_auth_code` builds when `text` is
supplied: `http://localhost:<port>?<urlencode of text, link, exit_hint>`. -/
def landingPage (port : Nat) (text : Str) (auth_uri : Option Str) : Str :=
  "http://localhost:".data ++ natToStr port ++ "?".data
    ++ urlencode
      [("text".data, text), ("link".data, pystr auth_uri), ("exit_hint".data, exitHint port)]

/-- Observable side effects of `obtain_auth_code`, in order: the browser
opened at a URI by a controller, and the listener's socket bound. -/
inductive Step where
  | browsed (controller : Controller) (uri : Option Str)
  | serverBound (host : Str) (port : Nat)
  deriving DecidableEq, Repr

/-- Failure of `obtain_auth_code`. -/
inductive ObtainErr where
  | browserUnavailable
  | bindFailure
  deriving DecidableEq, Repr

/-- Embeds `obtain_auth_code(listen_port, auth_uri, text, request_state)`:
when `text` is truthy, build the landing-page URI and `browse` it, else
`browse(auth_uri)`; then construct `AuthcodeRedirectServer` (whose bind
may fail — `bindOk` models whether the port can be acquired) and block in
`get_auth_code`.  Returns the ordered side effects and the result. -/
def obtain_auth_code (env : BrowserEnv) (bindOk : Bool) (listen_port : Nat)
    (auth_uri : Option Str) (text : Option Str) (request_state : Option Str)
    (events : List Event) : List Step × Except ObtainErr (Option Str) :=
  let target : Option Str :=
    if truthyStr text then some (landingPage listen_port (text.getD []) auth_uri)
    else auth_uri
  match browse env target with
  | Except.error _ => ([], Except.error ObtainErr.browserUnavailable)
  | Except.ok (c, u) =>
    if bindOk then
      let srv := mkServer listen_port request_state
      ([Step.browsed c u, Step.serverBound srv.bindHost srv.bindPort],
        Except.ok (get_auth_code srv events).2)
    else ([Step.browsed c u], Except.error ObtainErr.bindFailure)

/-- A `webbrowser` environment with no browser at all. -/
def envNoBrowser : BrowserEnv := ⟨none, fun _ => none⟩

/-- A `webbrowser` environment with only a default controller and none of
the preferred browsers installed. -/
def envOnlyDefault : BrowserEnv := ⟨some "default".data, fun _ => none⟩

/-! ## Helper lemmas -/

lemma stateCheckFails_false_of_pass (expected got : Option Str)
    (h : expected = none ∨ expected = some [] ∨
      ∃ st, expected = some st ∧ got = some st) :
    stateCheckFails expected got = false := by
  rcases h with h | h | ⟨st, h1, h2⟩
  · simp [stateCheckFails, h]
  · simp [stateCheckFails, h]
  · simp [stateCheckFails, h1, h2]

lemma stateCheckFails_true_of_mismatch (st : Str) (got : Option Str)
    (hne : st ≠ []) (hmis : got ≠ some st) :
    stateCheckFails (some st) got = true := by
  simp [stateCheckFails, hne, hmis]

lemma pdAux_ne_nil (f : Nat) (s : Str) (hs : s ≠ []) (hf : f ≠ 0) :
    pdAux f s ≠ [] := by
  cases f with
  | zero => exact absurd rfl hf
  | succ f =>
    cases s with
    | nil => exact absurd rfl hs
    | cons c rest =>
      unfold pdAux
      (repeat' split) <;> simp_all

lemma unquotePlus_ne_nil (v : Str) (h : v ≠ []) : unquotePlus v ≠ [] := by
  apply pdAux_ne_nil
  · simp [h]
  · simp [h]

lemma parse_qsl_val_ne_nil (q : Str) (p : Str × Str) (hp : p ∈ parse_qsl q) :
    p.2 ≠ [] := by
  rw [parse_qsl, List.mem_filterMap] at hp
  obtain ⟨field, _, hf⟩ := hp
  by_cases h1 : field = []
  · rw [if_pos h1] at hf
    exact absurd hf (by simp)
  · rw [if_neg h1] at hf
    cases hsplit : splitFirstEq field with
    | none =>
      rw [hsplit] at hf
      exact absurd hf (by simp)
    | some nv =>
      obtain ⟨n, v⟩ := nv
      simp only [hsplit] at hf
      by_cases h2 : v = []
      · rw [if_pos h2] at hf
        exact absurd hf (by simp)
      · rw [if_neg h2] at hf
        cases hf
        exact unquotePlus_ne_nil v h2

lemma qsGet_mem (qs : List (Str × Str)) (k v : Str) (h : v ∈ qsGet qs k) :
    (k, v) ∈ qs := by
  rw [qsGet, List.mem_map] at h
  obtain ⟨⟨k', v'⟩, hmem, hv⟩ := h
  rw [List.mem_filter] at hmem
  obtain ⟨hmem, hk⟩ := hmem
  simp only [decide_eq_true_eq] at hk
  cases hv
  cases hk
  exact hmem

lemma headD_mem {l : List Str} (h : l ≠ []) : l.headD [] ∈ l := by
  cases l with
  | nil => exact absurd rfl h
  | cons a rest => simp

lemma qsGet_headD_ne_nil (q : Str) (k : Str)
    (h : qsGet (parse_qsl q) k ≠ []) :
    (qsGet (parse_qsl q) k).headD [] ≠ [] :=
  parse_qsl_val_ne_nil q (k, (qsGet (parse_qsl q) k).headD [])
    (qsGet_mem _ _ _ (headD_mem h))

/-- Exhaustive shape of a `do_GET` dispatch: a state-mismatch
`ValueError` leaving the server untouched, a response leaving the server
untouched, or a response that stores a non-empty code. -/
lemma do_GET_cases (s : Server) (p : Str) :
    do_GET s p = GetOutcome.valueError "State does not match".data s ∨
    (∃ r, do_GET s p = GetOutcome.responded r s) ∨
    (∃ r c, c ≠ [] ∧
      do_GET s p = GetOutcome.responded r { s with auth_code := some c }) := by
  by_cases hcode : qsGet (parse_qsl (urlparseQuery p)) "code".data ≠ []
  · by_cases hsc :
      stateCheckFails s.state ((qsGet (parse_qsl (urlparseQuery p)) "state".data).head?) = true
    · left
      simp only [do_GET]
      rw [if_pos hcode, if_pos hsc]
    · right; right
      have heq : do_GET s p =
          GetOutcome.responded
            (send_full_response
              "Authentication complete. You can close this window".data true)
            { s with
                auth_code :=
                  some ((qsGet (parse_qsl (urlparseQuery p)) "code".data).headD []) } := by
        simp only [do_GET]
        rw [if_pos hcode, if_neg hsc]
      exact ⟨_, _, qsGet_headD_ne_nil _ _ hcode, heq⟩
  · right; left
    by_cases hlp : qsGet (parse_qsl (urlparseQuery p)) "text".data ≠ [] ∧
        qsGet (parse_qsl (urlparseQuery p)) "link".data ≠ []
    · have heq : do_GET s p =
          GetOutcome.responded
            (send_full_response
              ("<a href=".data
                ++ (qsGet (parse_qsl (urlparseQuery p)) "link".data).headD [] ++ ">".data
                ++ (qsGet (parse_qsl (urlparseQuery p)) "text".data).headD []
                ++ "</a><hr/>".data
                ++ (qsGet (parse_qsl (urlparseQuery p)) "exit_hint".data).headD []) true)
            s := by
        simp only [do_GET]
        rw [if_neg hcode, if_pos hlp]
      exact ⟨_, heq⟩
    · have heq : do_GET s p =
          GetOutcome.responded
            (send_full_response "This web service serves your redirect_uri".data true) s := by
        simp only [do_GET]
        rw [if_neg hcode, if_neg hlp]
      exact ⟨_, heq⟩

/-! ## Claim theorems: the request handler -/

/-- C2: for every GET request whose query string contains a `code`
parameter (whatever else is present) and whose state validation passes
(expected state absent or empty, or first `state` value equal to it), the
handler stores the first `code` value into the captured code and responds
HTTP 200 with body exactly
`"Authentication complete. You can close this window"` and content-type
`text/plain`. -/
theorem c2_code_capture (srv : Server) (path : Str)
    (hcode : qsGet (parse_qsl (urlparseQuery path)) "code".data ≠ [])
    (hok : srv.state = none ∨ srv.state = some [] ∨
      ∃ st, srv.state = some st ∧
        (qsGet (parse_qsl (urlparseQuery path)) "state".data).head? = some st) :
    do_GET srv path =
      GetOutcome.responded
        ⟨200, "text/plain".data,
          "Authentication complete. You can close this window".data⟩
        { srv with
            auth_code := some ((qsGet (parse_qsl (urlparseQuery path)) "code".data).headD []) } := by
  have hsc :
      stateCheckFails srv.state
        ((qsGet (parse_qsl (urlparseQuery path)) "state".data).head?) = false :=
    stateCheckFails_false_of_pass _ _ hok
  simp only [do_GET]
  rw [if_pos hcode, if_neg (by simp [hsc])]
  rfl

/-- Witness for C2: `/?code=abc123&text=Login&link=http://e` with no
expected state captures `abc123` (precedence over the landing-page
parameters) and answers in plain text. -/
theorem c2_code_capture_witness :
    do_GET (mkServer 8000 none) "/?code=abc123&text=Login&link=http://e".data =
      GetOutcome.responded
        ⟨200, "text/plain".data,
          "Authentication complete. You can close this window".data⟩
        { mkServer 8000 none with
            auth_code := some
              ((qsGet (parse_qsl (urlparseQuery "/?code=abc123&text=Login&link=http://e".data))
                "code".data).headD []) } :=
  c2_code_capture (mkServer 8000 none) "/?code=abc123&text=Login&link=http://e".data
    (by decide) (Or.inl (by decide))

/-- C6: for every GET request with no `code` parameter but both `text`
and `link` present, the handler responds HTTP 200, content-type
`text/html`, with body `<a href=L>T</a><hr/>H` for the first `link`,
first `text`, and raw first `exit_hint` value (empty when absent), and
leaves the server state untouched. -/
theorem c6_landing_page (srv : Server) (path : Str)
    (hnc : qsGet (parse_qsl (urlparseQuery path)) "code".data = [])
    (ht : qsGet (parse_qsl (urlparseQuery path)) "text".data ≠ [])
    (hl : qsGet (parse_qsl (urlparseQuery path)) "link".data ≠ []) :
    do_GET srv path =
      GetOutcome.responded
        ⟨200, "text/html".data,
          "<a href=".data ++ (qsGet (parse_qsl (urlparseQuery path)) "link".data).headD []
            ++ ">".data ++ (qsGet (parse_qsl (urlparseQuery path)) "text".data).headD []
            ++ "</a><hr/>".data
            ++ (qsGet (parse_qsl (urlparseQuery path)) "exit_hint".data).headD []⟩
        srv := by
  simp only [do_GET]
  rw [if_neg (by simp [hnc]), if_pos ⟨ht, hl⟩]
  rfl

/-- Witness for C6: the spec's Scenario 4 request. -/
theorem c6_landing_page_witness :
    do_GET (mkServer 8000 none) "/?text=Login&link=http://example.com/auth".data =
      GetOutcome.responded
        ⟨200, "text/html".data,
          "<a href=".data
            ++ (qsGet (parse_qsl (urlparseQuery "/?text=Login&link=http://example.com/auth".data))
                "link".data).headD []
            ++ ">".data
            ++ (qsGet (parse_qsl (urlparseQuery "/?text=Login&link=http://example.com/auth".data))
                "text".data).headD []
            ++ "</a><hr/>".data
            ++ (qsGet (parse_qsl (urlparseQuery "/?text=Login&link=http://example.com/auth".data))
                "exit_hint".data).headD []⟩
        (mkServer 8000 none) :=
  c6_landing_page (mkServer 8000 none) "/?text=Login&link=http://example.com/auth".data
    (by decide) (by decide) (by decide)

/-- C7: for every GET request with neither a `code` parameter nor both
`text` and `link`, the handler responds HTTP 200, plain text, with body
exactly `"This web service serves your redirect_uri"`, and mutates no
session state. -/
theorem c7_default_response (srv : Server) (path : Str)
    (hnc : qsGet (parse_qsl (urlparseQuery path)) "code".data = [])
    (hnl : ¬(qsGet (parse_qsl (urlparseQuery path)) "text".data ≠ [] ∧
        qsGet (parse_qsl (urlparseQuery path)) "link".data ≠ [])) :
    do_GET srv path =
      GetOutcome.responded
        ⟨200, "text/plain".data, "This web service serves your redirect_uri".data⟩
        srv := by
  simp only [do_GET]
  rw [if_neg (by simp [hnc]), if_neg hnl]
  rfl

/-- Witness for C7: a bare `/` request. -/
theorem c7_default_response_witness :
    do_GET (mkServer 8000 none) "/".data =
      GetOutcome.responded
        ⟨200, "text/plain".data, "This web service serves your redirect_uri".data⟩
        (mkServer 8000 none) :=
  c7_default_response (mkServer 8000 none) "/".data (by decide) (by decide)

/-! ## Loop lemmas -/

lemma runLoop_of_truthy (srv : Server) (evs : List Event)
    (h : truthyStr srv.auth_code = true) :
    runLoop srv evs = (srv, LoopExit.condFalse) := by
  cases evs with
  | nil => rw [runLoop, if_pos h]
  | cons e rest => cases e <;> rw [runLoop, if_pos h]

lemma runLoop_of_closed (srv : Server) (evs : List Event)
    (h1 : truthyStr srv.auth_code = false) (h2 : srv.closed = true) :
    runLoop srv evs = (srv, LoopExit.brokeOnClosed) := by
  cases evs with
  | nil => rw [runLoop, if_neg (by simp [h1]), if_pos h2]
  | cons e rest => cases e <;> rw [runLoop, if_neg (by simp [h1]), if_pos h2]

lemma runLoop_nil (srv : Server)
    (h1 : truthyStr srv.auth_code = false) (h2 : srv.closed = false) :
    runLoop srv [] = (srv, LoopExit.exhausted) := by
  rw [runLoop, if_neg (by simp [h1]), if_neg (by simp [h2])]

lemma runLoop_cons_timeout (srv : Server) (rest : List Event)
    (h1 : truthyStr srv.auth_code = false) (h2 : srv.closed = false) :
    runLoop srv (Event.timeout :: rest) =
      runLoop (handle_timeout { srv with handled := srv.handled + 1 }) rest := by
  rw [runLoop, if_neg (by simp [h1]), if_neg (by simp [h2])]

lemma runLoop_cons_request (srv : Server) (p : Str) (rest : List Event)
    (h1 : truthyStr srv.auth_code = false) (h2 : srv.closed = false) :
    runLoop srv (Event.request p :: rest) =
      match do_GET { srv with handled := srv.handled + 1 } p with
      | GetOutcome.valueError _ s' => (s', LoopExit.brokeValueError)
      | GetOutcome.responded _ s' => runLoop s' rest := by
  rw [runLoop, if_neg (by simp [h1]), if_neg (by simp [h2])]

/-- On an already-closed server the loop breaks at once without touching
the state: the first iteration's `handle_request` raises. -/
lemma runLoop_fst_of_closed (srv : Server) (evs : List Event)
    (h : srv.closed = true) : (runLoop srv evs).1 = srv := by
  cases ht : truthyStr srv.auth_code with
  | true => rw [runLoop_of_truthy srv evs ht]
  | false => rw [runLoop_of_closed srv evs ht h]

/-- Once a run of the loop ends with a truthy captured code, feeding any
further events changes nothing: the loop has already stopped. -/
lemma runLoop_append (evs1 : List Event) :
    ∀ (s : Server) (evs2 : List Event),
      truthyStr (runLoop s evs1).1.auth_code = true →
      runLoop s (evs1 ++ evs2) = runLoop s evs1 := by
  induction evs1 with
  | nil =>
    intro s evs2 h
    cases ht : truthyStr s.auth_code with
    | true =>
      rw [runLoop_of_truthy s _ ht, runLoop_of_truthy s _ ht]
    | false =>
      cases hc : s.closed with
      | true => rw [runLoop_of_closed s [] ht hc] at h; rw [ht] at h; exact absurd h (by simp)
      | false => rw [runLoop_nil s ht hc] at h; rw [ht] at h; exact absurd h (by simp)
  | cons e rest ih =>
    intro s evs2 h
    cases ht : truthyStr s.auth_code with
    | true =>
      rw [runLoop_of_truthy s _ ht, runLoop_of_truthy s _ ht]
    | false =>
      cases hc : s.closed with
      | true =>
        rw [runLoop_of_closed s _ ht hc, runLoop_of_closed s _ ht hc]
      | false =>
        cases e with
        | timeout =>
          rw [List.cons_append, runLoop_cons_timeout s _ ht hc,
            runLoop_cons_timeout s rest ht hc]
          rw [runLoop_cons_timeout s rest ht hc] at h
          exact ih _ _ h
        | request p =>
          rw [List.cons_append, runLoop_cons_request s p _ ht hc,
            runLoop_cons_request s p rest ht hc]
          rw [runLoop_cons_request s p rest ht hc] at h
          cases hdo : do_GET { s with handled := s.handled + 1 } p with
          | valueError m s' => rfl
          | responded r s' =>
            rw [hdo] at h
            exact ih s' evs2 h

/-- Exact close accounting inside the loop, from an open, never-closed
server: only `handle_timeout` calls `server_close` there, and a run has
met a timeout exactly when it breaks on the closed socket — so the loop
leaves `closeCount` at 1 on that exit and at 0 on every other exit
(capture, `ValueError` abort, or exhausted events). -/
lemma runLoop_closeCount_exact (evs : List Event) :
    ∀ s : Server, s.closeCount = 0 → s.closed = false →
      (runLoop s evs).1.closeCount =
        (if (runLoop s evs).2 = LoopExit.brokeOnClosed then 1 else 0) := by
  induction evs with
  | nil =>
    intro s h0 hc
    cases ht : truthyStr s.auth_code with
    | true => rw [runLoop_of_truthy s _ ht]; simp [h0]
    | false => rw [runLoop_nil s ht hc]; simp [h0]
  | cons e rest ih =>
    intro s h0 hc
    cases ht : truthyStr s.auth_code with
    | true => rw [runLoop_of_truthy s _ ht]; simp [h0]
    | false =>
      cases e with
      | timeout =>
        rw [runLoop_cons_timeout s rest ht hc]
        rw [runLoop_of_closed (handle_timeout { s with handled := s.handled + 1 }) rest
          (by simpa [handle_timeout, server_close] using ht)
          (by simp [handle_timeout, server_close])]
        simp [handle_timeout, server_close, h0]
      | request p =>
        rw [runLoop_cons_request s p rest ht hc]
        rcases do_GET_cases { s with handled := s.handled + 1 } p with hdo | ⟨r, hdo⟩ | ⟨r, c, _, hdo⟩
        · rw [hdo]; simp [h0]
        · rw [hdo]
          exact ih _ (by simpa using h0) (by simpa using hc)
        · rw [hdo]
          exact ih _ (by simpa using h0) (by simpa using hc)

/-! ## Claim theorems: the receive loop -/

/-- C1: a request carrying a `code` whose first `state` value differs
from a non-empty expected state (or is absent) makes the handler raise
`ValueError("State does not match")` without writing the captured code;
the receive loop breaks at once (consuming no later event), and
`get_auth_code` returns no code. -/
theorem c1_state_mismatch_aborts (srv : Server) (st path : Str) (evs : List Event)
    (hstate : srv.state = some st) (hne : st ≠ [])
    (hcode : qsGet (parse_qsl (urlparseQuery path)) "code".data ≠ [])
    (hmis : (qsGet (parse_qsl (urlparseQuery path)) "state".data).head? ≠ some st)
    (hnone : srv.auth_code = none) (hopen : srv.closed = false) :
    do_GET srv path = GetOutcome.valueError "State does not match".data srv ∧
    runLoop srv (Event.request path :: evs) =
      ({ srv with handled := srv.handled + 1 }, LoopExit.brokeValueError) ∧
    (get_auth_code srv (Event.request path :: evs)).2 = none := by
  have hdo : ∀ s : Server, s.state = some st →
      do_GET s path = GetOutcome.valueError "State does not match".data s := by
    intro s hs
    simp only [do_GET]
    rw [if_pos hcode]
    rw [if_pos (by rw [hs]; exact stateCheckFails_true_of_mismatch st _ hne hmis)]
  have hloop : runLoop srv (Event.request path :: evs) =
      ({ srv with handled := srv.handled + 1 }, LoopExit.brokeValueError) := by
    rw [runLoop_cons_request srv path evs (by simp [hnone, truthyStr]) hopen]
    rw [hdo { srv with handled := srv.handled + 1 } (by simpa using hstate)]
  refine ⟨hdo srv hstate, hloop, ?_⟩
  simp only [get_auth_code, hloop]
  simp [server_close, hnone]

/-- Witness for C1: the spec's Scenario 3 (`expected_state="xyz"`,
request `/?code=abc123&state=wrong`). -/
theorem c1_state_mismatch_aborts_witness :
    do_GET (mkServer 8000 (some "xyz".data)) "/?code=abc123&state=wrong".data =
      GetOutcome.valueError "State does not match".data (mkServer 8000 (some "xyz".data)) ∧
    runLoop (mkServer 8000 (some "xyz".data))
        [Event.request "/?code=abc123&state=wrong".data,
         Event.request "/?code=zzz&state=xyz".data] =
      ({ mkServer 8000 (some "xyz".data) with handled := (mkServer 8000 (some "xyz".data)).handled + 1 },
        LoopExit.brokeValueError) ∧
    (get_auth_code (mkServer 8000 (some "xyz".data))
        [Event.request "/?code=abc123&state=wrong".data,
         Event.request "/?code=zzz&state=xyz".data]).2 = none :=
  c1_state_mismatch_aborts (mkServer 8000 (some "xyz".data)) "xyz".data
    "/?code=abc123&state=wrong".data [Event.request "/?code=zzz&state=xyz".data]
    rfl (by decide) (by decide) (by decide) rfl rfl

/-- C3: the captured code transitions empty-to-set at most once: a server
whose code is already set makes the loop condition false, so the loop
issues no further `handle_request` and alters nothing; and once a run of
the loop has set the code, appending any further inbound events yields
the identical outcome (later requests are never handled). -/
theorem c3_capture_at_most_once (s s0 : Server) (evs evs1 evs2 : List Event)
    (h1 : truthyStr s.auth_code = true)
    (h2 : truthyStr (runLoop s0 evs1).1.auth_code = true) :
    runLoop s evs = (s, LoopExit.condFalse) ∧
    runLoop s0 (evs1 ++ evs2) = runLoop s0 evs1 :=
  ⟨runLoop_of_truthy s evs h1, runLoop_append evs1 s0 evs2 h2⟩

/-- Witness for C3: after `/?code=abc123` is captured, a subsequent
`/?code=zzz` changes nothing. -/
theorem c3_capture_at_most_once_witness :
    runLoop { mkServer 8000 none with auth_code := some "abc123".data }
        [Event.request "/?code=zzz".data] =
      ({ mkServer 8000 none with auth_code := some "abc123".data }, LoopExit.condFalse) ∧
    runLoop (mkServer 8000 none)
        ([Event.request "/?code=abc123".data] ++ [Event.request "/?code=zzz".data]) =
      runLoop (mkServer 8000 none) [Event.request "/?code=abc123".data] :=
  c3_capture_at_most_once
    { mkServer 8000 none with auth_code := some "abc123".data } (mkServer 8000 none)
    [Event.request "/?code=zzz".data] [Event.request "/?code=abc123".data]
    [Event.request "/?code=zzz".data] (by decide) (by decide)

/-- C4 (amended): the timeout is the fixed 300 seconds for every session;
when the first `handle_request` hits the timeout `get_auth_code` returns
no code; on every exit path the socket ends closed, and the exact
`server_close` accounting is: exactly one invocation (the `finally` at
loop exit) on the success, `ValueError`-abort, and exhausted exits, and
exactly two on the timeout path — where the loop broke on the socket
that `handle_timeout` had already closed inside the loop, the second
invocation being a no-op on the already-closed socket. -/
theorem c4_teardown_on_exit (port : Nat) (rs : Option Str) (evs : List Event) :
    (mkServer port rs).timeout = 300 ∧
    (get_auth_code (mkServer port rs) (Event.timeout :: evs)).2 = none ∧
    (get_auth_code (mkServer port rs) (Event.timeout :: evs)).1.closeCount = 2 ∧
    (get_auth_code (mkServer port rs) evs).1.closed = true ∧
    (get_auth_code (mkServer port rs) evs).1.closeCount =
      (if (runLoop (mkServer port rs) evs).2 = LoopExit.brokeOnClosed then 2 else 1) := by
  have htime : runLoop (mkServer port rs) (Event.timeout :: evs) =
      (handle_timeout { mkServer port rs with handled := 1 },
        (runLoop (handle_timeout { mkServer port rs with handled := 1 }) evs).2) := by
    rw [runLoop_cons_timeout (mkServer port rs) evs (by simp [mkServer, truthyStr]) rfl]
    have := runLoop_fst_of_closed (handle_timeout { mkServer port rs with handled := 1 })
      evs (by simp [handle_timeout, server_close])
    exact Prod.ext this rfl
  refine ⟨rfl, ?_, ?_, ?_, ?_⟩
  · simp only [get_auth_code, htime]
    simp [server_close, handle_timeout, mkServer]
  · simp only [get_auth_code, htime]
    simp [server_close, handle_timeout, mkServer]
  · simp [get_auth_code, server_close]
  · have hx := runLoop_closeCount_exact evs (mkServer port rs) rfl rfl
    by_cases hb : (runLoop (mkServer port rs) evs).2 = LoopExit.brokeOnClosed
    · simp [get_auth_code, server_close, hx, hb]
    · simp [get_auth_code, server_close, hx, hb]

/-- C4 counterexample to the claim as stated: on the timeout path the
socket teardown `server_close` is invoked twice — by `handle_timeout`
inside the loop and again by the `finally` clause at loop exit — not
exactly once. -/
theorem c4_counterexample_double_close :
    ¬ (get_auth_code (mkServer 8000 none) [Event.timeout]).1.closeCount = 1 := by decide

/-! ## Claim theorems: binding, browser, orchestration -/

/-- C5 counterexample to the claim as stated: the server is constructed
with bind address `("", port)`, whose host is the empty string
(`INADDR_ANY`, every interface), not `"127.0.0.1"`. -/
theorem c5_counterexample_not_loopback_only :
    ¬ (mkServer 8000 none).bindHost = "127.0.0.1".data := by decide

/-- C5 (amended): the listener binds its TCP socket with the empty host
`""` — all interfaces — at the given port, so it accepts connections on
every local interface (loopback included), not on loopback only. -/
theorem c5_binds_all_interfaces (port : Nat) (rs : Option Str) :
    (mkServer port rs).bindHost = "".data ∧ (mkServer port rs).bindPort = port :=
  ⟨rfl, rfl⟩

/-- C8 counterexample to the claim as stated: when `webbrowser.get()`
itself finds no default controller, its error propagates out of `browse`
uncaught, so `obtain_auth_code` fails before the listener is ever
constructed — total failure to obtain a controller is fatal, not
swallowed. -/
theorem c8_counterexample_total_failure_fatal :
    obtain_auth_code envNoBrowser true 8000 (some "http://a".data) none none [] =
      ([], Except.error ObtainErr.browserUnavailable) := rfl

/-- C8 (amended): each failure to discover a specific preferred browser
is swallowed and the next candidate is tried (falling back to the default
controller when all fail); and whenever the initial default-controller
lookup succeeds, the flow always proceeds to construct the listener and
block for a code — even if no preferred browser is found.  But the
default lookup itself is unprotected: its failure aborts the flow before
the listener exists. -/
theorem c8_preferred_failures_swallowed (env : BrowserEnv) (cur : Controller)
    (b : Str) (rest : List Str) (d : Controller) (port : Nat)
    (uri text rs : Option Str) (evs : List Event)
    (hb : env.byName b = none) (hd : env.default = some d) :
    pickController env cur (b :: rest) = pickController env cur rest ∧
    (obtain_auth_code env true port uri text rs evs).2 =
      Except.ok (get_auth_code (mkServer port rs) evs).2 ∧
    (obtain_auth_code env true port uri text rs evs).1.getLast? =
      some (Step.serverBound "".data port) := by
  refine ⟨?_, ?_, ?_⟩
  · rw [pickController, hb]
  · simp [obtain_auth_code, browse, hd]
  · simp [obtain_auth_code, browse, hd, mkServer]

/-- Witness for C8: no preferred browser is installed, only a default
controller exists; the listener still runs and captures a code. -/
theorem c8_preferred_failures_swallowed_witness :
    pickController envOnlyDefault "default".data
        ("chrome".data :: ["firefox".data, "safari".data, "windows-default".data]) =
      pickController envOnlyDefault "default".data
        ["firefox".data, "safari".data, "windows-default".data] ∧
    (obtain_auth_code envOnlyDefault true 8000 (some "http://a".data) none none
        [Event.request "/?code=abc".data]).2 =
      Except.ok (get_auth_code (mkServer 8000 none) [Event.request "/?code=abc".data]).2 ∧
    (obtain_auth_code envOnlyDefault true 8000 (some "http://a".data) none none
        [Event.request "/?code=abc".data]).1.getLast? =
      some (Step.serverBound "".data 8000) :=
  c8_preferred_failures_swallowed envOnlyDefault "default".data "chrome".data
    ["firefox".data, "safari".data, "windows-default".data] "default".data 8000
    (some "http://a".data) none none [Event.request "/?code=abc".data] rfl rfl

/-- C9: query parameters with blank values are dropped by the decoder
(every value `parse_qsl` produces is non-empty), so `/?code=` falls to
the default branch with no capture attempted; consequently every code a
response stores is a non-empty string, which is what makes the loop's
Python-truthiness test `while not self.auth_code` a sound
captured/not-captured test. -/
theorem c9_blank_values_dropped (q : Str) (pq : Str × Str)
    (srv s' : Server) (path : Str) (r : Response)
    (hp : pq ∈ parse_qsl q)
    (hdo : do_GET srv path = GetOutcome.responded r s') :
    pq.2 ≠ [] ∧
    do_GET srv "/?code=".data =
      GetOutcome.responded
        ⟨200, "text/plain".data, "This web service serves your redirect_uri".data⟩
        srv ∧
    (s'.auth_code = srv.auth_code ∨
      (s'.auth_code.getD [] ≠ [] ∧ truthyStr s'.auth_code = true)) := by
  refine ⟨parse_qsl_val_ne_nil q pq hp, rfl, ?_⟩
  rcases do_GET_cases srv path with hc | ⟨r', hc⟩ | ⟨r', c, hcne, hc⟩
  · rw [hdo] at hc
    exact absurd hc (by simp)
  · rw [hdo] at hc
    cases hc
    exact Or.inl rfl
  · rw [hdo] at hc
    cases hc
    exact Or.inr ⟨by simpa using hcne, by simp [truthyStr, hcne]⟩

/-- Witness for C9: the lone pair decoded from `code=x` has a non-empty
value, and a successful capture of `abc123` stores a non-empty, truthy
code. -/
theorem c9_blank_values_dropped_witness :
    ("code".data, "x".data).2 ≠ [] ∧
    do_GET (mkServer 8000 none) "/?code=".data =
      GetOutcome.responded
        ⟨200, "text/plain".data, "This web service serves your redirect_uri".data⟩
        (mkServer 8000 none) ∧
    (({ mkServer 8000 none with auth_code := some "abc123".data } : Server).auth_code =
        (mkServer 8000 none).auth_code ∨
      (({ mkServer 8000 none with auth_code := some "abc123".data } : Server).auth_code.getD []
          ≠ [] ∧
        truthyStr ({ mkServer 8000 none with auth_code := some "abc123".data } : Server).auth_code
          = true)) :=
  c9_blank_values_dropped "code=x".data ("code".data, "x".data)
    (mkServer 8000 none) { mkServer 8000 none with auth_code := some "abc123".data }
    "/?code=abc123".data
    ⟨200, "text/plain".data, "Authentication complete. You can close this window".data⟩
    (by decide) (by decide)

/-- C10: with any default browser controller available, `obtain_auth_code`
opens the browser — at the landing-page URI when `text` is truthy, else
directly at `auth_uri` — strictly before the listener is constructed: the
browse step heads every side-effect trace, and when the bind fails the
call surfaces the bind failure with the browser side effect already
performed (and no listener bound). -/
theorem c10_browse_precedes_bind (env : BrowserEnv) (d : Controller) (bindOk : Bool)
    (port : Nat) (uri text rs : Option Str) (evs : List Event)
    (hd : env.default = some d) :
    (obtain_auth_code env bindOk port uri text rs evs).1.head? =
      some (Step.browsed (pickController env d preferredBrowsers)
        (if truthyStr text then some (landingPage port (text.getD []) uri) else uri)) ∧
    obtain_auth_code env false port uri text rs evs =
      ([Step.browsed (pickController env d preferredBrowsers)
          (if truthyStr text then some (landingPage port (text.getD []) uri) else uri)],
        Except.error ObtainErr.bindFailure) := by
  constructor
  · cases bindOk <;> simp [obtain_auth_code, browse, hd]
  · simp [obtain_auth_code, browse, hd]

/-- Witness for C10: default controller present, bind fails; the browse
side effect at `auth_uri` has already happened. -/
theorem c10_browse_precedes_bind_witness :
    (obtain_auth_code envOnlyDefault false 8000 (some "http://a".data) none none []).1.head? =
      some (Step.browsed (pickController envOnlyDefault "default".data preferredBrowsers)
        (if truthyStr none then some (landingPage 8000 ((none : Option Str).getD [])
            (some "http://a".data))
          else some "http://a".data)) ∧
    obtain_auth_code envOnlyDefault false 8000 (some "http://a".data) none none [] =
      ([Step.browsed (pickController envOnlyDefault "default".data preferredBrowsers)
          (if truthyStr none then some (landingPage 8000 ((none : Option Str).getD [])
              (some "http://a".data))
            else some "http://a".data)],
        Except.error ObtainErr.bindFailure) :=
  c10_browse_precedes_bind envOnlyDefault "default".data false 8000
    (some "http://a".data) none none [] rfl
